import Mathlib

/-!
Shallow embedding of the go-odoo XML-RPC client (package `odoo`:
`odoo.go`, `errors.go`, `config.go`) and verification of its
specification.

Modelling conventions:
* Go `interface{}` values that travel over the XML-RPC boundary are
  modelled by the inductive `GoVal`.  Distinct Go dynamic types get
  distinct constructors: in particular `goInt` (Go `int`) and `goInt64`
  (Go `int64`) are different constructors, because Go interface equality
  distinguishes dynamic types — `interface{}(int64(0)) != interface{}(int(0))`.
* The remote server and the transport layer are not in the repository;
  a remote round trip is modelled by passing the response the transport
  would deliver (`RpcResponse`) as an explicit argument.  The Go pattern
  `(result interface{}, err error)` where `result` stays `nil` on error
  is reproduced literally.
* Go type assertions (`x.(int64)`, `x.([]interface{})`) can panic; the
  functions that perform them return a `GoOutcome`, whose `panic`
  constructor records an unrecovered runtime fault.
* Methods that mutate the receiver in place are modelled as functions
  returning the updated `Client` record.
-/

/-- Values carried in Go `interface{}` slots over the XML-RPC boundary.
`goInt` and `goInt64` are kept apart because Go compares interface
values by dynamic type first. -/
inductive GoVal : Type where
  | goNil : GoVal
  | goBool : Bool → GoVal
  | goInt : Int → GoVal
  | goInt64 : Int → GoVal
  | goStr : String → GoVal
  | goList : List GoVal → GoVal
  | goMap : List (String × GoVal) → GoVal

/-- The Go expression `uid != 0` where `uid` has static type `interface{}`:
the untyped constant `0` is boxed with its default type `int`, and two
interface values are equal only when their dynamic types coincide.  So
the test is `false` exactly on a dynamic `int` holding `0`; a decoded
`int64(0)` makes it `true`. -/
def goNeInt0 : GoVal → Bool
  | GoVal.goInt 0 => false
  | _ => true

/-- `ClientConfig` from `config.go`. -/
structure ClientConfig : Type where
  Url : String
  Db : String
  Username : String
  Password : String
deriving DecidableEq

/-- `ClientConfig.IsValid` from `config.go`: all four fields non-empty. -/
def ClientConfig.IsValid (config : ClientConfig) : Bool :=
  config.Url ≠ "" && config.Db ≠ "" && config.Username ≠ "" && config.Password ≠ ""

/-- The error values of `errors.go`, plus the opaque error produced by the
underlying xmlrpc transport (only its presence matters to the client). -/
inductive OdooError : Type where
  | clientAuthError (config : ClientConfig)
  | invalidConfigError (config : ClientConfig)
  | invalidContextError
  | transportError (msg : String)
deriving DecidableEq

/-- Outcome of running a piece of Go code that may hit an unrecovered
runtime fault (failed type assertion). -/
inductive GoOutcome (α : Type) : Type where
  | ok (a : α)
  | panic (msg : String)

/-- What the transport hands back for one remote call: a decoded value,
or a transport error.  In the Go code (`Client.call`) the `result`
variable stays `nil` when `c.Call` errors. -/
inductive RpcResponse : Type where
  | ok (v : GoVal)
  | transportErr (msg : String)

/-- The `(result, err)` pair `Client.call` returns for a given transport
response: on error the decoded value is the zero value `nil`. -/
def callResult : RpcResponse → GoVal × Option OdooError
  | RpcResponse.ok v => (v, none)
  | RpcResponse.transportErr m => (GoVal.goNil, some (OdooError.transportError m))

/-- The client state from `odoo.go`: borrowed config, numeric user id and
authenticated flag.  The two `*xmlrpc.Client` handles carry no state the
claims depend on; their presence is passed to `Close` explicitly. -/
structure Client : Type where
  cfg : ClientConfig
  uid : Int
  auth : Bool
deriving DecidableEq

/-- `Client.isAuthenticated` (odoo.go:70-72). -/
def isAuthenticated (client : Client) : Bool :=
  client.uid ≠ 0 && client.auth

/-- `Client.getArgs` (odoo.go:75-83): the credential prefix for a remote
call.  Authenticated: `{db, uid, password}`; otherwise
`{db, username, password, ""}`. -/
def getArgs (client : Client) : List GoVal :=
  if isAuthenticated client then
    [GoVal.goStr client.cfg.Db, GoVal.goInt64 client.uid, GoVal.goStr client.cfg.Password]
  else
    [GoVal.goStr client.cfg.Db, GoVal.goStr client.cfg.Username,
      GoVal.goStr client.cfg.Password, GoVal.goStr ""]

/-- `Clause` (odoo.go:50-52): a 3-element tuple `{field, op, values}`. -/
def Clause (field : String) (op : String) (values : GoVal) : GoVal :=
  GoVal.goList [GoVal.goStr field, GoVal.goStr op, values]

/-- `NewDomain` (odoo.go:55-58).  `Domain{clauses}` is a composite literal
of type `[]interface{}` with the one element `clauses` (the whole
variadic slice boxed as a single `interface{}`), so the result has
length 1 whatever the number of clauses. -/
def NewDomain (clauses : List GoVal) : List GoVal :=
  [GoVal.goList clauses]

/-- `Client.Authenticate` (odoo.go:103-114), given the response `resp` the
"authenticate" round trip would produce.  Returns the updated client,
the error `Authenticate` returns, and whether a remote call was issued.

Scoping detail reproduced from the Go source: the statement
`if uid, err := client.commonCall(...); uid != 0 && err == nil` declares
a NEW `err` scoped to the whole `if`/`else`; the assignment
`err = &ClientAuthError{config: client.cfg}` in the `else` branch writes
to that shadowed variable, so the OUTER `err` — the one `return err`
reads — is still its initial `nil`.  The success branch performs the
type assertion `uid.(int64)`, which panics on any other dynamic type. -/
def authenticate (client : Client) (resp : RpcResponse) :
    GoOutcome (Client × Option OdooError × Bool) :=
  let errOuter : Option OdooError := none
  if isAuthenticated client then
    GoOutcome.ok (client, errOuter, false)
  else
    let (uidv, errInner) := callResult resp
    if goNeInt0 uidv && errInner.isNone then
      match uidv with
      | GoVal.goInt64 n => GoOutcome.ok ({ client with uid := n, auth := true }, errOuter, true)
      | _ => GoOutcome.panic "interface conversion: interface is not int64"
    else
      let _errInnerShadowed := some (OdooError.clientAuthError client.cfg)
      GoOutcome.ok (client, errOuter, true)

/-- `Client.Close` (odoo.go:117-131).  `commonNonNil`/`objectNonNil` say
whether each handle is non-nil; `commonCloseErr`/`objectCloseErr` are
the errors the respective `Close()` calls would report.  The uid/auth
reset happens unconditionally before any handle is touched. -/
def close (client : Client) (commonNonNil objectNonNil : Bool)
    (commonCloseErr objectCloseErr : Option OdooError) : Client × Option OdooError :=
  let client := { client with uid := 0, auth := false }
  let err : Option OdooError := if commonNonNil then commonCloseErr else none
  let err : Option OdooError := if err.isNone && objectNonNil then objectCloseErr else err
  (client, err)

/-- `Client.ExecuteKw` (odoo.go:135-159), given the response `resp` the
"execute_kw" round trip would produce.  Returns `(result, err)` plus a
flag recording whether the RPC was actually dispatched.  Mirrors the
source: build `params` from the credential prefix plus
`model, method, args`; append the single context map if exactly one is
given, error on two or more; then dispatch only if no error yet and the
session is authenticated. -/
def executeKw (client : Client) (method : String) (model : String)
    (args : List GoVal) (context : List GoVal) (resp : RpcResponse) :
    GoVal × Option OdooError × Bool :=
  let params := getArgs client ++ [GoVal.goStr model, GoVal.goStr method, GoVal.goList args]
  let err : Option OdooError :=
    if context.length = 1 then none
    else if context.length ≥ 1 then some OdooError.invalidContextError
    else none
  let _wireParams := if context.length = 1 then params ++ context else params
  if err.isNone then
    if isAuthenticated client then
      let (result, err) := callResult resp
      (result, err, true)
    else
      (GoVal.goNil, some (OdooError.clientAuthError client.cfg), false)
  else
    (GoVal.goNil, err, false)

/-- The coercion loop of `Client.Search` (odoo.go:222-225):
`result[i] = r.(int64)` over the elements, panicking at the first
element whose dynamic type is not `int64`. -/
def asInt64List : List GoVal → GoOutcome (List Int)
  | [] => GoOutcome.ok []
  | GoVal.goInt64 n :: rest =>
    match asInt64List rest with
    | GoOutcome.ok ns => GoOutcome.ok (n :: ns)
    | GoOutcome.panic m => GoOutcome.panic m
  | _ :: _ => GoOutcome.panic "interface conversion: interface is not int64"

/-- `Client.Search` (odoo.go:214-228), given the response of the
underlying "execute_kw" round trip.  The domain is flattened clause by
clause into `args`; on a nil error the response is asserted to
`[]interface{}` and each element to `int64` — both assertions panic on a
dynamic-type mismatch. -/
def search (client : Client) (model : String) (domain : List GoVal)
    (context : List GoVal) (resp : RpcResponse) :
    GoOutcome (Option (List Int) × Option OdooError) :=
  let args : List GoVal := domain
  let (response, err, _) := executeKw client "search" model args context resp
  if err.isNone then
    match response with
    | GoVal.goList xs =>
      match asInt64List xs with
      | GoOutcome.ok ns => GoOutcome.ok (some ns, err)
      | GoOutcome.panic m => GoOutcome.panic m
    | _ => GoOutcome.panic "interface conversion: interface is not a list"
  else
    GoOutcome.ok (none, err)

/-- `NewClient` (odoo.go:261-286), given the outcome of opening each
endpoint (`xmlrpc.NewClient` error or success) and the response of the
authentication round trip.  Mirrors the source: invalid config errors
out before anything else; an endpoint-opening error leaves the client
`nil`; otherwise a fresh unauthenticated client is built and
`Authenticate` runs — and since `Authenticate` never returns a non-nil
error (see `authenticate`), the `client = nil` reset is dead code. -/
def newClient (config : ClientConfig) (commonOpenErr objectOpenErr : Option OdooError)
    (resp : RpcResponse) : GoOutcome (Option Client × Option OdooError) :=
  if config.IsValid then
    match commonOpenErr with
    | some e => GoOutcome.ok (none, some e)
    | none =>
      match objectOpenErr with
      | some e => GoOutcome.ok (none, some e)
      | none =>
        let client : Client := { cfg := config, uid := 0, auth := false }
        match authenticate client resp with
        | GoOutcome.panic m => GoOutcome.panic m
        | GoOutcome.ok (client, err, _) =>
          if err.isSome then GoOutcome.ok (none, err)
          else GoOutcome.ok (some client, err)
  else
    GoOutcome.ok (none, some (OdooError.invalidConfigError config))

/-! ## Test fixtures (the configuration of `odoo_test.go`) and helper lemmas -/

/-- The `ClientConfig` used by the repository's tests. -/
def testConfig : ClientConfig :=
  { Url := "http://localhost:8069", Db := "test", Username := "admin", Password := "admin" }

/-- A freshly constructed, unauthenticated client over `testConfig`. -/
def freshClient : Client := { cfg := testConfig, uid := 0, auth := false }

/-- A client over `testConfig` that has authenticated as uid 2. -/
def authedClient : Client := { cfg := testConfig, uid := 2, auth := true }

/-- A sample clause, as in the repository's search test. -/
def clauseActive : GoVal := Clause "active" "=" (GoVal.goInt 1)

/-- A second sample clause. -/
def clauseLogin : GoVal := Clause "login" "=" (GoVal.goStr "John")

theorem executeKw_dispatch_ok (client : Client) (method model : String)
    (args context : List GoVal) (v : GoVal)
    (hauth : isAuthenticated client = true) (hctx : context.length ≤ 1) :
    executeKw client method model args context (RpcResponse.ok v) = (v, none, true) := by
  rcases context with _ | ⟨a, _ | ⟨b, l⟩⟩
  · simp [executeKw, hauth, callResult]
  · simp [executeKw, hauth, callResult]
  · simp at hctx

theorem asInt64List_map (ns : List Int) :
    asInt64List (ns.map GoVal.goInt64) = GoOutcome.ok ns := by
  induction ns with
  | nil => rfl
  | cons n rest ih => simp [asInt64List, ih]

theorem asInt64List_panic (xs : List GoVal)
    (h : ¬ ∃ ns : List Int, xs = ns.map GoVal.goInt64) :
    ∃ m, asInt64List xs = GoOutcome.panic m := by
  induction xs with
  | nil => exact absurd ⟨[], rfl⟩ h
  | cons x rest ih =>
    cases x with
    | goInt64 n =>
      have h' : ¬ ∃ ns : List Int, rest = ns.map GoVal.goInt64 := by
        rintro ⟨ns, rfl⟩
        exact h ⟨n :: ns, rfl⟩
      obtain ⟨m, hm⟩ := ih h'
      exact ⟨m, by simp [asInt64List, hm]⟩
    | goNil => exact ⟨_, rfl⟩
    | goBool b => exact ⟨_, rfl⟩
    | goInt n => exact ⟨_, rfl⟩
    | goStr s => exact ⟨_, rfl⟩
    | goList l => exact ⟨_, rfl⟩
    | goMap m => exact ⟨_, rfl⟩

/-! ## The claims -/

/-- C1, behaviour of the code at the failing input: with a fresh
unauthenticated client, when the remote authenticate call fails with a
transport error, `Authenticate` returns a `nil` error (not the
`ClientAuthError` the claim requires), because the error is assigned to
the `err` variable shadowed by the inner `:=` declaration.  The session
does stay unauthenticated. -/
theorem authenticate_transport_error_returns_nil_error :
    authenticate freshClient (RpcResponse.transportErr "connection refused")
      = GoOutcome.ok (freshClient, none, true)
    ∧ isAuthenticated freshClient = false := ⟨rfl, rfl⟩

/-- C2, behaviour of the code at the failing input: with a valid config
and both endpoints opening fine, when the remote authentication attempt
fails with a transport error, `NewClient` returns a NON-nil client and a
nil error — the client it returns is unauthenticated.  The guard
`if err = client.Authenticate(); err != nil { client = nil }` never
fires because `Authenticate` always returns nil. -/
theorem newClient_auth_failure_returns_client :
    newClient testConfig none none (RpcResponse.transportErr "connection refused")
      = GoOutcome.ok (some freshClient, none)
    ∧ isAuthenticated freshClient = false := ⟨rfl, rfl⟩

/-- C3, counterexample: `NewDomain` applied to two expressions returns a
`Domain` of length 1, not 2 — the variadic slice is wrapped as a single
element, so the result is not a single-level sequence of the given
expressions. -/
theorem newDomain_two_clauses_length_one :
    (NewDomain [clauseActive, clauseLogin]).length = 1
    ∧ (NewDomain [clauseActive, clauseLogin]).length ≠ 2 := by
  exact ⟨rfl, by decide⟩

/-- C3, amended: `NewDomain(e1, ..., en)` returns a `Domain` of length 1
whose single element is the sequence `[e1, ..., en]` — the given
expressions, in order, wrapped one extra level deep. -/
theorem newDomain_wraps_clauses_once (clauses : List GoVal) :
    (NewDomain clauses).length = 1
    ∧ (NewDomain clauses).head? = some (GoVal.goList clauses) := ⟨rfl, rfl⟩

/-- C4: the credential prefix is `{db, uid, password}` (3 elements) when
the session is authenticated, and `{db, username, password, ""}`
(4 elements) when it is not. -/
theorem getArgs_credential_shape (client : Client) :
    (isAuthenticated client = true →
      getArgs client =
        [GoVal.goStr client.cfg.Db, GoVal.goInt64 client.uid, GoVal.goStr client.cfg.Password]
      ∧ (getArgs client).length = 3)
    ∧ (isAuthenticated client = false →
      getArgs client =
        [GoVal.goStr client.cfg.Db, GoVal.goStr client.cfg.Username,
          GoVal.goStr client.cfg.Password, GoVal.goStr ""]
      ∧ (getArgs client).length = 4) := by
  constructor <;> intro h <;> simp [getArgs, h]

/-- C4 witness: the prefix at a concrete authenticated client. -/
theorem getArgs_credential_shape_witness :
    getArgs authedClient = [GoVal.goStr "test", GoVal.goInt64 2, GoVal.goStr "admin"]
    ∧ (getArgs authedClient).length = 3 :=
  (getArgs_credential_shape authedClient).1 (by decide)

/-- C5: for an unauthenticated client (in particular one reset by
`Close`), `ExecuteKw` with at most one context map returns a nil result
and a `ClientAuthError`, and dispatches no RPC. -/
theorem executeKw_unauthenticated_errors (client : Client) (method model : String)
    (args context : List GoVal) (resp : RpcResponse)
    (hauth : isAuthenticated client = false) (hctx : context.length ≤ 1) :
    executeKw client method model args context resp
      = (GoVal.goNil, some (OdooError.clientAuthError client.cfg), false)
    ∧ ∀ cNN oNN cErr oErr,
        executeKw (close client cNN oNN cErr oErr).1 method model args context resp
          = (GoVal.goNil, some (OdooError.clientAuthError client.cfg), false) := by
  constructor
  · rcases context with _ | ⟨a, _ | ⟨b, l⟩⟩
    · simp [executeKw, hauth]
    · simp [executeKw, hauth]
    · simp at hctx
  · intro cNN oNN cErr oErr
    rcases context with _ | ⟨a, _ | ⟨b, l⟩⟩
    · simp [executeKw, close, isAuthenticated]
    · simp [executeKw, close, isAuthenticated]
    · simp at hctx

/-- C5 witness: a concrete unauthenticated client. -/
theorem executeKw_unauthenticated_errors_witness :
    executeKw freshClient "read" "res.users" [] [] (RpcResponse.ok GoVal.goNil)
      = (GoVal.goNil, some (OdooError.clientAuthError testConfig), false) := by
  have h := (executeKw_unauthenticated_errors freshClient "read" "res.users" [] []
      (RpcResponse.ok GoVal.goNil) (by decide) (by decide)).1
  simpa [freshClient] using h

/-- C6: `ExecuteKw` with two or more context maps returns the
`InvalidContextError` and dispatches no RPC, whatever the
authentication state and the would-be response. -/
theorem executeKw_two_contexts_rejected (client : Client) (method model : String)
    (args context : List GoVal) (resp : RpcResponse) (hctx : 2 ≤ context.length) :
    executeKw client method model args context resp
      = (GoVal.goNil, some OdooError.invalidContextError, false) := by
  rcases context with _ | ⟨a, _ | ⟨b, l⟩⟩
  · simp at hctx
  · simp at hctx
  · simp [executeKw]

/-- C6 witness: two context maps at a concrete authenticated client. -/
theorem executeKw_two_contexts_rejected_witness :
    executeKw authedClient "read" "res.users" [] [GoVal.goMap [], GoVal.goMap []]
      (RpcResponse.ok GoVal.goNil)
      = (GoVal.goNil, some OdooError.invalidContextError, false) :=
  executeKw_two_contexts_rejected authedClient "read" "res.users" []
    [GoVal.goMap [], GoVal.goMap []] (RpcResponse.ok GoVal.goNil) (by decide)

/-- C7: on a client that is already authenticated, `Authenticate`
returns a nil error, leaves the client state (uid and auth flag)
unchanged, and issues no remote call — whatever response the remote
would have given.  Since the state is returned unchanged, calling it
twice changes nothing either. -/
theorem authenticate_idempotent_when_authenticated (client : Client) (resp : RpcResponse)
    (hauth : isAuthenticated client = true) :
    authenticate client resp = GoOutcome.ok (client, none, false) := by
  simp [authenticate, hauth]

/-- C7 witness: a concrete authenticated client. -/
theorem authenticate_idempotent_witness :
    authenticate authedClient (RpcResponse.ok (GoVal.goInt64 7))
      = GoOutcome.ok (authedClient, none, false) :=
  authenticate_idempotent_when_authenticated authedClient
    (RpcResponse.ok (GoVal.goInt64 7)) (by decide)

/-- C8: on an authenticated client, when the search RPC succeeds with a
sequence of `int64` values, `Search` returns exactly those values in
order (same length, same order); when the decoded response is not a
sequence, or some element of it is not an `int64`, the coercion panics
(an unrecovered type-assertion fault) instead of returning an error. -/
theorem search_coerces_or_panics (client : Client) (model : String)
    (domain context : List GoVal) (v : GoVal)
    (hauth : isAuthenticated client = true) (hctx : context.length ≤ 1) :
    (∀ ns : List Int, v = GoVal.goList (ns.map GoVal.goInt64) →
      search client model domain context (RpcResponse.ok v)
        = GoOutcome.ok (some ns, none))
    ∧ ((¬ ∃ ns : List Int, v = GoVal.goList (ns.map GoVal.goInt64)) →
      ∃ m, search client model domain context (RpcResponse.ok v) = GoOutcome.panic m) := by
  have he := executeKw_dispatch_ok client "search" model domain context v hauth hctx
  constructor
  · rintro ns rfl
    simp [search, he, asInt64List_map]
  · intro h
    cases v with
    | goList xs =>
      have h' : ¬ ∃ ns : List Int, xs = ns.map GoVal.goInt64 := by
        rintro ⟨ns, rfl⟩
        exact h ⟨ns, rfl⟩
      obtain ⟨m, hm⟩ := asInt64List_panic xs h'
      exact ⟨m, by simp [search, he, hm]⟩
    | goNil => exact ⟨"interface conversion: interface is not a list", by simp [search, he]⟩
    | goBool b => exact ⟨"interface conversion: interface is not a list", by simp [search, he]⟩
    | goInt n => exact ⟨"interface conversion: interface is not a list", by simp [search, he]⟩
    | goInt64 n =>
      exact ⟨"interface conversion: interface is not a list", by simp [search, he]⟩
    | goStr s => exact ⟨"interface conversion: interface is not a list", by simp [search, he]⟩
    | goMap m => exact ⟨"interface conversion: interface is not a list", by simp [search, he]⟩

/-- C8 witness: a concrete successful search decoding `[1, 2]`. -/
theorem search_coerces_witness :
    search authedClient "res.users" (NewDomain [clauseActive]) []
      (RpcResponse.ok (GoVal.goList [GoVal.goInt64 1, GoVal.goInt64 2]))
      = GoOutcome.ok (some [1, 2], none) :=
  (search_coerces_or_panics authedClient "res.users" (NewDomain [clauseActive]) []
    (GoVal.goList [GoVal.goInt64 1, GoVal.goInt64 2]) (by decide) (by decide)).1 [1, 2] rfl

/-- C9: after `Close`, the stored uid is 0 and the auth flag is false
(so the session is unauthenticated), regardless of which handles are
non-nil and of any error either handle's `Close()` reports. -/
theorem close_resets_session (client : Client) (commonNonNil objectNonNil : Bool)
    (commonCloseErr objectCloseErr : Option OdooError) :
    (close client commonNonNil objectNonNil commonCloseErr objectCloseErr).1.uid = 0
    ∧ (close client commonNonNil objectNonNil commonCloseErr objectCloseErr).1.auth = false
    ∧ isAuthenticated
        (close client commonNonNil objectNonNil commonCloseErr objectCloseErr).1 = false :=
  ⟨rfl, rfl, rfl⟩

/-- C10, behaviour of the code at the failing input: starting from a
fresh client (the state `NewClient` builds), an authenticate response
that decodes to the `int64` value 0 drives the client into a state with
`auth = true` and `uid = 0`, violating the claimed invariant
(auth = true implies uid ≠ 0).  The Go guard `uid != 0` compares the
`interface{}` result against an `int`-typed 0, which an `int64(0)` never
equals, so the zero id takes the success branch.  The state is reachable
through `NewClient` itself, which returns it with a nil error. -/
theorem authenticate_zero_id_breaks_invariant :
    authenticate freshClient (RpcResponse.ok (GoVal.goInt64 0))
      = GoOutcome.ok ({ cfg := testConfig, uid := 0, auth := true }, none, true)
    ∧ newClient testConfig none none (RpcResponse.ok (GoVal.goInt64 0))
      = GoOutcome.ok (some { cfg := testConfig, uid := 0, auth := true }, none)
    ∧ ({ cfg := testConfig, uid := 0, auth := true } : Client).auth = true
    ∧ ({ cfg := testConfig, uid := 0, auth := true } : Client).uid = 0 :=
  ⟨rfl, rfl, rfl, rfl⟩
